import Mathlib

/-!
Verification of the media-storage pipeline (sfdcai/media-storage).

This file gives a shallow embedding of the parts of the repository that the
checked claims are about:

* `common/database.py` — the `media` table, the SQL statements issued by
  `DatabaseManager`, and the connection lifecycle of `get_connection`
  (which closes the sqlite3 connection without committing, so a method's
  writes survive only if the method itself called `conn.commit()`);
* `bulk_nas_sync.py` — the NAS (archive) copy executor and its batch loop;
* `compress_media.py` — the compression executor and its batch loop;
* `cleanup_icloud.py` / `delete_icloud.py` — the album-move and deletion
  executors and their retry loops;
* `pipeline_orchestrator.py` — the stage sequencing of `run_pipeline`.

External collaborators (PIL encoding, ffmpeg, the iCloud album API, date
parsing) are parameters of the embedded functions, as in the source they are
invoked through narrow call boundaries.
-/

namespace MediaStorage

/-- One row of the `media` table (`common/database.py`, `init_database`,
lines 59-78).  The autoincrement `id` and `created_at` columns play no role
in any claim and are omitted.  Timestamps (`CURRENT_TIMESTAMP`) are modelled
as a `Nat` clock value supplied by the caller. -/
structure MediaRecord where
  filename : String
  icloud_id : String
  created_date : String
  local_path : String
  status : String
  synced_google : Option String := none
  synced_nas : Option String := none
  album_moved : Nat := 0
  deleted_icloud : Option String := none
  initial_size : Option Nat := none
  current_size : Option Nat := none
  last_compressed : Option Nat := none
  last_updated : Nat := 0
  error_count : Nat := 0
  last_error : Option String := none
deriving Repr, DecidableEq

/-- The `media` table: a list of rows. -/
abbrev MediaTable := List MediaRecord

/-- Row inserted by `add_media_record` (database.py lines 129-133): the five
named columns are set, every other column takes its schema default
(`NULL`, `0`, `CURRENT_TIMESTAMP`). -/
def newMediaRecord (filename icloud_id created_date local_path status : String)
    (now : Nat) : MediaRecord :=
  { filename := filename, icloud_id := icloud_id, created_date := created_date,
    local_path := local_path, status := status, last_updated := now }

/-- Effect of `INSERT OR IGNORE INTO media ...` (database.py lines 129-133):
`icloud_id` is `UNIQUE`, so the insert is ignored (rowcount 0) when a row
with the same `icloud_id` exists, otherwise one row is appended
(rowcount 1). -/
def sqlInsertOrIgnoreMedia (t : MediaTable)
    (filename icloud_id created_date local_path status : String)
    (now : Nat) : MediaTable × Nat :=
  if t.any (fun r => r.icloud_id == icloud_id) then (t, 0)
  else (t ++ [newMediaRecord filename icloud_id created_date local_path status now], 1)

/-- The dynamic `field` argument of `update_media_field` (database.py line
146).  The pipeline invokes it only through `mark_synced_google`,
`mark_synced_nas`, `mark_album_moved` and `mark_deleted_icloud`
(database.py lines 262-268, 313-319), so the closed set of
field/value-type pairs actually issued is this one. -/
inductive FieldUpdate where
  | set_synced_google (v : String)
  | set_synced_nas (v : String)
  | set_album_moved (v : Nat)
  | set_deleted_icloud (v : String)
deriving Repr, DecidableEq

/-- `SET {field} = ?, last_updated = CURRENT_TIMESTAMP` applied to one row
(database.py lines 151-155). -/
def applyFieldUpdate (u : FieldUpdate) (now : Nat) (r : MediaRecord) : MediaRecord :=
  match u with
  | .set_synced_google v => { r with synced_google := some v, last_updated := now }
  | .set_synced_nas v => { r with synced_nas := some v, last_updated := now }
  | .set_album_moved v => { r with album_moved := v, last_updated := now }
  | .set_deleted_icloud v => { r with deleted_icloud := some v, last_updated := now }

/-- Effect of the `UPDATE media SET {field} = ?, last_updated =
CURRENT_TIMESTAMP WHERE icloud_id = ?` statement (database.py lines
151-155): every row matching the id is updated; the second component is
`cursor.rowcount`. -/
def sqlUpdateMediaField (t : MediaTable) (u : FieldUpdate) (icloud_id : String)
    (now : Nat) : MediaTable × Nat :=
  (t.map (fun r => if r.icloud_id == icloud_id then applyFieldUpdate u now r else r),
   t.countP (fun r => r.icloud_id == icloud_id))

/-- Effect of the `UPDATE` in `mark_compressed` (database.py lines 275-279):
sets `current_size`, `last_compressed` and `last_updated`. -/
def sqlMarkCompressed (t : MediaTable) (icloud_id : String) (new_size now : Nat) :
    MediaTable × Nat :=
  (t.map (fun r => if r.icloud_id == icloud_id then
      { r with current_size := some new_size, last_compressed := some now,
               last_updated := now } else r),
   t.countP (fun r => r.icloud_id == icloud_id))

/-- Effect of the `UPDATE` in `set_initial_size` (database.py lines 299-303):
`initial_size = COALESCE(initial_size, ?)` — first write wins; note the
statement does not touch `last_updated`. -/
def sqlSetInitialSize (t : MediaTable) (icloud_id : String) (size : Nat) : MediaTable :=
  t.map (fun r => if r.icloud_id == icloud_id then
    { r with initial_size := (r.initial_size).orElse (fun _ => some size) } else r)

/-- Effect of the `UPDATE` in `increment_error_count` (database.py lines
326-332). -/
def sqlIncrementError (t : MediaTable) (icloud_id msg : String) (now : Nat) : MediaTable :=
  t.map (fun r => if r.icloud_id == icloud_id then
    { r with error_count := r.error_count + 1, last_error := some msg,
             last_updated := now } else r)

/-! ### Connection lifecycle

`DatabaseManager.get_connection` (database.py lines 34-50) opens a fresh
sqlite3 connection, yields it, and in its `finally` block calls
`conn.close()` — it never calls `conn.commit()`.  The Python `sqlite3`
module implicitly opens a transaction before any DML statement, and
`Connection.close()` discards a pending transaction.  Consequently a method
body's INSERT/UPDATE statements persist only when the method itself calls
`conn.commit()` (as `init_database`, `start_pipeline_stage` and
`complete_pipeline_stage` do — and the media-row methods do not). -/

/-- What a method body produced inside its connection: the return value, the
table as seen through the connection after its statements, and whether the
body called `conn.commit()`. -/
structure ConnOutcome (α : Type) where
  value : α
  table : MediaTable
  committed : Bool

/-- Closing the connection (the `finally` of `get_connection`): an
uncommitted transaction is rolled back, so the durable table is the
pre-call table unless the body committed. -/
def closeConnection {α : Type} (db : MediaTable) (o : ConnOutcome α) : α × MediaTable :=
  (o.value, if o.committed then o.table else db)

/-- `DatabaseManager.update_media_field` (database.py lines 146-166): runs
the UPDATE, returns `rowcount > 0`, and closes the connection without
ever calling `conn.commit()`.  Result: (returned bool, durable table after
the call). -/
def update_media_field (db : MediaTable) (u : FieldUpdate) (icloud_id : String)
    (now : Nat) : Bool × MediaTable :=
  let (t, rowcount) := sqlUpdateMediaField db u icloud_id now
  closeConnection db ⟨decide (0 < rowcount), t, false⟩

/-- `DatabaseManager.add_media_record` (database.py lines 123-144): runs the
`INSERT OR IGNORE`, returns `rowcount > 0`, and closes the connection
without calling `conn.commit()`. -/
def add_media_record (db : MediaTable)
    (filename icloud_id created_date local_path status : String)
    (now : Nat) : Bool × MediaTable :=
  let (t, rowcount) := sqlInsertOrIgnoreMedia db filename icloud_id created_date
    local_path status now
  closeConnection db ⟨decide (0 < rowcount), t, false⟩

/-- `SELECT * FROM media WHERE icloud_id = ?` over a fresh connection
(read-only, so commit plays no role). -/
def selectById (t : MediaTable) (icloud_id : String) : Option MediaRecord :=
  t.find? (fun r => r.icloud_id == icloud_id)

/-! ### Stage gate queries (database.py lines 180-260) -/

/-- Row predicate of `get_media_ready_for_nas_sync` (lines 200-203). -/
def nasSyncGate (r : MediaRecord) : Bool :=
  r.status == "downloaded" && r.synced_nas == none

/-- Row predicate of `get_media_ready_for_compression` (lines 215-221). -/
def compressionGate (r : MediaRecord) : Bool :=
  r.status == "downloaded" && r.synced_google == some "yes" &&
    r.synced_nas == some "yes" && r.last_compressed == none

/-- Row predicate of `get_media_ready_for_cleanup` (lines 233-239). -/
def cleanupGate (r : MediaRecord) : Bool :=
  r.status == "downloaded" && r.synced_google == some "yes" &&
    r.synced_nas == some "yes" && r.album_moved == 0

/-- Row predicate of `get_media_ready_for_deletion` (lines 251-255). -/
def deletionGate (r : MediaRecord) : Bool :=
  r.album_moved == 1 && r.deleted_icloud == none

/-- The SELECT of `get_media_ready_for_cleanup` applied to a table. -/
def sqlMediaReadyForCleanup (t : MediaTable) : List MediaRecord :=
  t.filter cleanupGate

/-- A database error surfaced by sqlite3 (`sqlite3.Error`). -/
inductive DbError where
  | sqliteError (msg : String)
deriving Repr, DecidableEq

/-- `DatabaseManager.get_media_ready_for_nas_sync` (database.py lines
195-208): the connection attempt/SELECT either yields the committed table
or raises `sqlite3.Error`; the `except` clause logs and returns the empty
list. -/
def get_media_ready_for_nas_sync (conn : Except DbError MediaTable) :
    List MediaRecord :=
  match conn with
  | .ok t => t.filter nasSyncGate
  | .error _ => []

/-! ### Filesystem model

The executors observe and mutate the filesystem through `os.path.exists`,
`os.path.getsize`, `shutil.copy2`, `shutil.move`, `os.remove`,
`os.replace` and file writes.  We model a filesystem as a finite map from
paths to file contents; a file's byte size is the length of its content. -/

/-- Contents of one file; `size` models `os.path.getsize`. -/
structure FsFile where
  bytes : List Nat
deriving Repr, DecidableEq

/-- Size in bytes of a file. -/
def FsFile.size (f : FsFile) : Nat := f.bytes.length

/-- A filesystem: association list from absolute path to contents. -/
abbrev FS := List (String × FsFile)

/-- Look a path up (`os.path.exists` / `open` / `getsize`). -/
def fsGet (fs : FS) (p : String) : Option FsFile :=
  (fs.find? (fun e => e.1 == p)).map (fun e => e.2)

/-- Write `f` at path `p`, replacing any existing file. -/
def fsSet (fs : FS) (p : String) (f : FsFile) : FS :=
  fs.filter (fun e => e.1 != p) ++ [(p, f)]

/-- Remove the file at `p` if present (`os.remove`). -/
def fsRemove (fs : FS) (p : String) : FS :=
  fs.filter (fun e => e.1 != p)

/-! ### NAS (archive copy) executor — `bulk_nas_sync.py`

`NASSyncManager.__init__` fixes `max_retries = 3` and `retry_delay = 5`
seconds (lines 25-26). -/

/-- `max_retries` of every stage manager (3). -/
def max_retries : Nat := 3

/-- `retry_delay` of every stage manager (5 seconds). -/
def retry_delay : Nat := 5

/-- Observable calls made by the batch loops: external per-file actions,
filesystem side effects, sleeps, and `DatabaseManager` write methods. -/
inductive Call where
  | syncFileToNas (path : String)
  | copy2 (src dst : String)
  | removeFile (p : String)
  | compressFileCall (p : String)
  | cleanupFileCall (fn : String)
  | deleteFileCall (fn : String)
  | sleep (secs : Nat)
  | dbMarkSyncedNas (id : String)
  | dbMarkAlbumMoved (id : String)
  | dbMarkDeletedIcloud (id : String)
  | dbMarkCompressed (id : String) (size : Nat)
  | dbSetInitialSize (id : String)
  | dbIncrementError (id : String) (msg : String)
deriving Repr, DecidableEq

/-- `NASSyncManager._verify_file_integrity` (bulk_nas_sync.py lines
111-127): byte-size comparison between source and target; missing file
makes `getsize` raise, caught and reported as failure. -/
def verify_file_integrity (fs : FS) (source_path target_path : String) : Bool :=
  match fsGet fs source_path, fsGet fs target_path with
  | some s, some t => s.size == t.size
  | _, _ => false

/-- The `year_month` computation of `sync_file_to_nas` (lines 67-76):
empty `created_date` or a parse failure gives `"unknown"`; otherwise the
`datetime` collaborator formats the date as `YYYY/MM`.  `parseYM` stands
for `datetime.fromisoformat(...).strftime('%Y/%m')`. -/
def yearMonthOf (parseYM : String → Option String) (created_date : String) : String :=
  if created_date == "" then "unknown"
  else match parseYM created_date with
       | some ym => ym
       | none => "unknown"

/-- `os.path.join` of the mount path, year/month folder and filename. -/
def nasPathOf (mount_path ym filename : String) : String :=
  mount_path ++ "/" ++ ym ++ "/" ++ filename

/-- `NASSyncManager.sync_file_to_nas` (bulk_nas_sync.py lines 55-109).
Returns the boolean result, the filesystem after the call, and the trace
of filesystem side effects.  `shutil.copy2` is modelled as a complete
copy, so the post-copy integrity check never fires the cleanup branch
(which is nevertheless embedded as in the source). -/
def sync_file_to_nas (mount_path : String) (parseYM : String → Option String)
    (fs : FS) (file : MediaRecord) : Bool × FS × List Call :=
  match fsGet fs file.local_path with
  | none => (false, fs, [])
  | some src =>
    let ym := yearMonthOf parseYM file.created_date
    let nas_path := nasPathOf mount_path ym file.filename
    match fsGet fs nas_path with
    | some _ =>
      if verify_file_integrity fs file.local_path nas_path then
        (true, fs, [])
      else
        let fs1 := fsSet fs nas_path src
        if verify_file_integrity fs1 file.local_path nas_path then
          (true, fs1, [.copy2 file.local_path nas_path])
        else
          (false, fsRemove fs1 nas_path,
           [.copy2 file.local_path nas_path, .removeFile nas_path])
    | none =>
      let fs1 := fsSet fs nas_path src
      if verify_file_integrity fs1 file.local_path nas_path then
        (true, fs1, [.copy2 file.local_path nas_path])
      else
        (false, fsRemove fs1 nas_path,
         [.copy2 file.local_path nas_path, .removeFile nas_path])

/-- `NASSyncManager.cleanup_local_file` (lines 129-142), reached only when
`delete_after_sync` is configured: removes the local copy. -/
def cleanup_local_file (fs : FS) (file : MediaRecord) : FS × List Call :=
  match fsGet fs file.local_path with
  | some _ => (fsRemove fs file.local_path, [.removeFile file.local_path])
  | none => (fs, [])

/-- The per-file retry loop of `sync_batch_to_nas` (lines 162-184):
`for attempt in range(max_retries)`, break on `sync_file_to_nas` success
followed by `mark_synced_nas` success, `time.sleep(retry_delay)` whenever
`attempt < max_retries - 1` and the attempt did not break.  `attempts` is
the list of remaining attempt indices (`List.range max_retries` at entry);
`markOk attempt` is the boolean returned by `db.mark_synced_nas` on that
attempt. -/
def nasFileRetry (mount_path : String) (parseYM : String → Option String)
    (delete_after_sync : Bool) (markOk : Nat → Bool) (file : MediaRecord) :
    List Nat → FS → Bool × FS × List Call
  | [], fs => (false, fs, [])
  | attempt :: rest, fs =>
    let (ok, fs1, tr) := sync_file_to_nas mount_path parseYM fs file
    let tr := Call.syncFileToNas file.local_path :: tr
    if ok then
      if markOk attempt then
        let (fs2, tr2) :=
          if delete_after_sync then cleanup_local_file fs1 file else (fs1, [])
        (true, fs2, tr ++ [.dbMarkSyncedNas file.icloud_id] ++ tr2)
      else
        let slp : List Call :=
          if attempt < max_retries - 1 then [.sleep retry_delay] else []
        let (s, fs2, tr2) :=
          nasFileRetry mount_path parseYM delete_after_sync markOk file rest fs1
        (s, fs2, tr ++ [.dbMarkSyncedNas file.icloud_id] ++ slp ++ tr2)
    else
      let slp : List Call :=
        if attempt < max_retries - 1 then [.sleep retry_delay] else []
      let (s, fs2, tr2) :=
        nasFileRetry mount_path parseYM delete_after_sync markOk file rest fs1
      (s, fs2, tr ++ slp ++ tr2)

/-- Aggregated counters of a batch (`results` dict of the batch methods). -/
structure BatchCounts where
  total : Nat := 0
  successful : Nat := 0
  failed : Nat := 0
  skipped : Nat := 0
deriving Repr, DecidableEq

/-- `NASSyncManager.sync_batch_to_nas` (bulk_nas_sync.py lines 144-191):
per file, skip if `synced_nas == 'yes'`, otherwise run the retry loop; on
exhausted retries count the file failed and call `increment_error_count`
with the fixed message. -/
def sync_batch_to_nas (mount_path : String) (parseYM : String → Option String)
    (delete_after_sync : Bool) (markOk : Nat → Bool) :
    List MediaRecord → FS → BatchCounts × FS × List Call
  | [], fs => ({}, fs, [])
  | file :: files, fs =>
    if file.synced_nas == some "yes" then
      let (c, fs1, tr) :=
        sync_batch_to_nas mount_path parseYM delete_after_sync markOk files fs
      ({ c with total := c.total + 1, skipped := c.skipped + 1 }, fs1, tr)
    else
      let (ok, fs1, tr) := nasFileRetry mount_path parseYM delete_after_sync
        markOk file (List.range max_retries) fs
      let (tr1, succ, fail) :=
        if ok then (tr, 1, 0)
        else (tr ++ [Call.dbIncrementError file.icloud_id
          "NAS sync failed after 3 attempts"], 0, 1)
      let (c, fs2, tr2) :=
        sync_batch_to_nas mount_path parseYM delete_after_sync markOk files fs1
      ({ c with
           total := c.total + 1
           successful := c.successful + succ
           failed := c.failed + fail }, fs2, tr1 ++ tr2)

/-- The tail of `bulk_nas_sync.main` after validation and `init_database`
succeed (lines 229-258): fetch the gate query; an empty list — including
the one produced by a swallowed `sqlite3.Error` — logs "No files ready for
NAS synchronization" and returns `True`; otherwise the batch runs and
`main` returns `failed == 0`. -/
def nas_main_from_gate (mount_path : String) (parseYM : String → Option String)
    (delete_after_sync : Bool) (markOk : Nat → Bool) (fs : FS)
    (conn : Except DbError MediaTable) : Bool :=
  let files := get_media_ready_for_nas_sync conn
  if files.isEmpty then true
  else
    let (c, _, _) := sync_batch_to_nas mount_path parseYM delete_after_sync
      markOk files fs
    c.failed == 0

/-! ### Compression executor — `compress_media.py`

`CompressionManager.__init__` also sets `max_retries = 3` and
`retry_delay = 5` (lines 25-26), but `compress_batch` never uses them.
The PIL / ffmpeg encoders are external collaborators: an encoder is a
function from the selected quality parameter to the re-encoded file
contents (`none` when encoding raises). -/

/-- `config` record of `get_compression_config` (common/config.py). -/
structure CompressionConfig where
  enabled : Bool
  light_quality : Nat
  medium_quality : Nat
  heavy_quality : Nat
  light_crf : Nat
  medium_crf : Nat
  heavy_crf : Nat
deriving Repr, DecidableEq

/-- Character-level scan computing the last dot-separated segment: the
running segment is reset at each `'.'`, so the final accumulator is the
suffix after the last dot (the whole string when it has no dot). -/
def extCore : List Char → List Char → List Char
  | [], acc => acc
  | c :: cs, acc => if c = '.' then extCore cs [] else extCore cs (acc ++ [c])

/-- `file_path.lower().split('.')[-1]` (compress_media.py line 142): the
last dot-separated segment of the lowercased path. -/
def extOf (p : String) : String :=
  String.mk (extCore (p.data.map Char.toLower) [])

/-- Image quality tier by age (compress_media.py lines 145-153). -/
def imageQualityFor (cfg : CompressionConfig) (age_years : ℚ) : Nat :=
  if age_years < 1 then cfg.light_quality
  else if age_years ≤ 3 then cfg.medium_quality
  else cfg.heavy_quality

/-- Video CRF tier by age (compress_media.py lines 145-153). -/
def videoCrfFor (cfg : CompressionConfig) (age_years : ℚ) : Nat :=
  if age_years < 1 then cfg.light_crf
  else if age_years ≤ 3 then cfg.medium_crf
  else cfg.heavy_crf

/-- `CompressionManager.compress_image` (compress_media.py lines 28-61):
back the file up, re-encode it in place with `img.save(file_path, ...)`,
read the new size, drop the backup, and return the new size.  There is no
minimum-compression-ratio check anywhere in the function: whatever size
the encoder produces is written and returned.  `encoded` is the content
produced by the PIL save (`none` models a raised exception, whose handler
restores the backup). -/
def compress_image (fs : FS) (file_path : String) (encoded : Option FsFile) :
    Option Nat × FS :=
  let backup_path := file_path ++ ".backup"
  match fsGet fs file_path with
  | none => (none, fs)
  | some orig =>
    let fsB := if (fsGet fs backup_path).isSome then fs
               else fsSet fs backup_path orig
    match encoded with
    | none =>
      (none, fsSet (fsRemove fsB backup_path) file_path orig)
    | some enc =>
      let fs1 := fsSet fsB file_path enc
      (some enc.size, fsRemove fs1 backup_path)

/-- `CompressionManager.compress_video` (compress_media.py lines 63-121):
back the file up, have ffmpeg write `file_path + ".tmp.mp4"`, replace the
original with the tmp file, drop the backup, return the new size; on any
ffmpeg failure run `_cleanup_temp_files` (remove tmp, restore backup). -/
def compress_video (fs : FS) (file_path : String) (encoded : Option FsFile) :
    Option Nat × FS :=
  let tmp_path := file_path ++ ".tmp.mp4"
  let backup_path := file_path ++ ".backup"
  match fsGet fs file_path with
  | none => (none, fs)
  | some orig =>
    let fsB := if (fsGet fs backup_path).isSome then fs
               else fsSet fs backup_path orig
    match encoded with
    | none =>
      (none, fsSet (fsRemove fsB backup_path) file_path orig)
    | some enc =>
      let fsT := fsSet fsB tmp_path enc
      let fs1 := fsSet (fsRemove fsT tmp_path) file_path enc
      (some enc.size, fsRemove fs1 backup_path)

/-- Image extensions accepted by `compress_file` (line 156). -/
def imageExts : List String := ["jpg", "jpeg", "png", "webp"]

/-- Video extensions accepted by `compress_file` (line 158). -/
def videoExts : List String := ["mp4", "mov", "avi", "mkv"]

/-- `CompressionManager.compress_file` (compress_media.py lines 136-162):
disabled config or an unsupported extension yields `None`; otherwise
dispatch on the lowercased extension with the age-tiered quality. -/
def compress_file (cfg : CompressionConfig) (imgEncoder vidEncoder : Nat → Option FsFile)
    (fs : FS) (file_path : String) (age_years : ℚ) : Option Nat × FS :=
  if !cfg.enabled then (none, fs)
  else
    let ext := extOf file_path
    if imageExts.contains ext then
      compress_image fs file_path (imgEncoder (imageQualityFor cfg age_years))
    else if videoExts.contains ext then
      compress_video fs file_path (vidEncoder (videoCrfFor cfg age_years))
    else (none, fs)

/-- The per-file body of `CompressionManager.compress_batch` (compress_media.py
lines 187-227).  A missing `local_path` logs a warning, bumps `skipped`
and continues — no error count, no retry.  Otherwise `set_initial_size`
is called, the file is compressed exactly once, and a truthy `new_size`
(`if new_size:` — so nonzero) leads to `mark_compressed` (whose failure
bumps `failed` without `increment_error_count`), while a falsy one bumps
`failed` and calls `increment_error_count`.  `ageOf` stands for the
`dateutil`/`datetime` age computation (lines 203-206); `markOk` is
`mark_compressed`'s returned boolean.  Returns the counter deltas, the
filesystem, and the call trace. -/
def compressProcessFile (cfg : CompressionConfig) (ageOf : String → ℚ)
    (imgEncoder vidEncoder : Nat → Option FsFile) (markOk : Bool)
    (fs : FS) (r : MediaRecord) : BatchCounts × FS × List Call :=
  match fsGet fs r.local_path with
  | none => ({ skipped := 1 }, fs, [])
  | some _ =>
    let tr0 : List Call := [.dbSetInitialSize r.icloud_id]
    let (new_size, fs1) := compress_file cfg imgEncoder vidEncoder fs
      r.local_path (ageOf r.created_date)
    let tr1 := tr0 ++ [Call.compressFileCall r.local_path]
    match new_size with
    | some n =>
      if n != 0 then
        if markOk then
          ({ successful := 1 }, fs1, tr1 ++ [.dbMarkCompressed r.icloud_id n])
        else
          ({ failed := 1 }, fs1, tr1 ++ [.dbMarkCompressed r.icloud_id n])
      else
        ({ failed := 1 }, fs1,
         tr1 ++ [.dbIncrementError r.icloud_id "Compression failed"])
    | none =>
      ({ failed := 1 }, fs1,
       tr1 ++ [.dbIncrementError r.icloud_id "Compression failed"])

/-- The loop of `compress_batch` over the gate-selected files (lines
187-227), accumulating counters, filesystem state and the call trace. -/
def compress_batch_files (cfg : CompressionConfig) (ageOf : String → ℚ)
    (imgEncoder vidEncoder : Nat → Option FsFile) (markOk : Bool) :
    List MediaRecord → FS → BatchCounts × FS × List Call
  | [], fs => ({}, fs, [])
  | r :: files, fs =>
    let (d, fs1, tr) := compressProcessFile cfg ageOf imgEncoder vidEncoder
      markOk fs r
    let (c, fs2, tr2) := compress_batch_files cfg ageOf imgEncoder vidEncoder
      markOk files fs1
    ({ total := d.total + c.total + 1
       successful := d.successful + c.successful
       failed := d.failed + c.failed
       skipped := d.skipped + c.skipped }, fs2, tr ++ tr2)

/-! ### Cleanup (deletion-prep) executor — `cleanup_icloud.py`

`cleanup_file` (lines 57-92) moves the file through the processed and
delete-pending folders and adds it to the iCloud album — all through
external collaborators — so its per-attempt outcome is abstracted as a
boolean-valued function of the attempt index. -/

/-- The per-file retry loop of `ICloudCleanupManager.cleanup_batch`
(cleanup_icloud.py lines 121-135): same shape as the NAS loop — break on
the first successful `cleanup_file`, sleep `retry_delay` when
`attempt < max_retries - 1`. -/
def cleanupFileRetry (fn : String) (body : Nat → Bool) : List Nat → Bool × List Call
  | [] => (false, [])
  | attempt :: rest =>
    if body attempt then (true, [.cleanupFileCall fn])
    else
      let slp : List Call :=
        if attempt < max_retries - 1 then [.sleep retry_delay] else []
      let (s, tr) := cleanupFileRetry fn body rest
      (s, Call.cleanupFileCall fn :: slp ++ tr)

/-- One iteration of `cleanup_batch`'s file loop (cleanup_icloud.py lines
112-139): skip when `album_moved == 1`, otherwise retry `cleanup_file`;
on exhaustion bump `failed` and call `increment_error_count`. -/
def cleanupProcessFile (body : Nat → Bool) (r : MediaRecord) :
    BatchCounts × List Call :=
  if r.album_moved == 1 then ({ total := 1, skipped := 1 }, [])
  else
    let (ok, tr) := cleanupFileRetry r.filename body (List.range max_retries)
    if ok then ({ total := 1, successful := 1 }, tr)
    else ({ total := 1, failed := 1 },
          tr ++ [.dbIncrementError r.icloud_id "Cleanup failed after 3 attempts"])

/-! ### Origin-deletion executor — `delete_icloud.py` -/

/-- `ICloudDeletionManager.delete_from_icloud_album` (delete_icloud.py lines
33-53).  The album is the list of photo filenames returned by the iCloud
API (`none` when `get_or_create_icloud_album` fails).  The loop deletes
the first photo whose filename matches and returns `True`; a photo that
is *not* found logs a warning and returns `False`. -/
def delete_from_icloud_album (album : Option (List String)) (filename : String) :
    Bool × Option (List String) :=
  match album with
  | none => (false, none)
  | some photos =>
    if photos.contains filename then (true, some (photos.erase filename))
    else (false, some photos)

/-- `ICloudDeletionManager.delete_local_file` (delete_icloud.py lines 55-67):
removes an existing file; a missing file logs a warning and is considered
successful ("Consider it successful if file doesn't exist"). -/
def delete_local_file (fs : FS) (file_path : String) : Bool × FS :=
  match fsGet fs file_path with
  | some _ => (true, fsRemove fs file_path)
  | none => (true, fs)

/-- `ICloudDeletionManager.delete_file` (delete_icloud.py lines 69-97):
delete from the album, delete the local file, and only if both succeeded
call `mark_deleted_icloud` (whose boolean `markOk` it returns). -/
def delete_file (album : Option (List String)) (fs : FS) (markOk : Bool)
    (file : MediaRecord) : Bool × Option (List String) × FS :=
  let (icloudOk, album1) := delete_from_icloud_album album file.filename
  let (localOk, fs1) := delete_local_file fs file.local_path
  if icloudOk && localOk then (markOk, album1, fs1)
  else (false, album1, fs1)

/-- The per-file retry loop of `ICloudDeletionManager.delete_batch`
(delete_icloud.py lines 126-140), with the per-attempt outcome of
`delete_file` abstracted as `body`. -/
def deleteFileRetry (fn : String) (body : Nat → Bool) : List Nat → Bool × List Call
  | [] => (false, [])
  | attempt :: rest =>
    if body attempt then (true, [.deleteFileCall fn])
    else
      let slp : List Call :=
        if attempt < max_retries - 1 then [.sleep retry_delay] else []
      let (s, tr) := deleteFileRetry fn body rest
      (s, Call.deleteFileCall fn :: slp ++ tr)

/-- One iteration of `delete_batch`'s file loop (delete_icloud.py lines
117-144): skip when `deleted_icloud == 'yes'`, retry `delete_file`, on
exhaustion bump `failed` and call `increment_error_count`. -/
def deleteProcessFile (body : Nat → Bool) (r : MediaRecord) :
    BatchCounts × List Call :=
  if r.deleted_icloud == some "yes" then ({ total := 1, skipped := 1 }, [])
  else
    let (ok, tr) := deleteFileRetry r.filename body (List.range max_retries)
    if ok then ({ total := 1, successful := 1 }, tr)
    else ({ total := 1, failed := 1 },
          tr ++ [.dbIncrementError r.icloud_id "Deletion failed after 3 attempts"])

/-! ### Orchestrator — `pipeline_orchestrator.py` -/

/-- `PipelineOrchestrator.stages` (pipeline_orchestrator.py lines 25-32). -/
def pipelineStages : List String :=
  ["icloud_sync", "pixel_sync", "nas_sync", "compression", "cleanup", "deletion"]

/-- What a stage invocation did: `run_stage` (lines 104-119) calls the stage
module's `main()` and records its boolean, or catches a raised exception
(leaving `success = False`). -/
inductive StageOutcome where
  | mainReturned (b : Bool)
  | raised (msg : String)
deriving Repr, DecidableEq

/-- The `success` value `run_stage` hands to `run_pipeline`. -/
def stageSuccess : StageOutcome → Bool
  | .mainReturned b => b
  | .raised _ => false

/-- The `main()` return of the four batch stages (`bulk_nas_sync.py` line
252, `compress_media.py` line 279, `cleanup_icloud.py` line 193,
`delete_icloud.py` line 198): `success = results['failed'] == 0`. -/
def batchMainResult (c : BatchCounts) : StageOutcome :=
  .mainReturned (c.failed == 0)

/-- The stage loop of `PipelineOrchestrator.run_pipeline` (lines 174-220):
unknown stage names are skipped; each known stage runs and appends its
`(stage, success)` result; a non-successful result sets
`overall_success = False` and `break`s, executing none of the remaining
stages.  Returns the executed-stage results and `overall_success`. -/
def runStages (outcome : String → StageOutcome) :
    List String → List (String × Bool) × Bool
  | [] => ([], true)
  | s :: rest =>
    if pipelineStages.contains s then
      if stageSuccess (outcome s) then
        let (rs, ok) := runStages outcome rest
        ((s, true) :: rs, ok)
      else ([(s, false)], false)
    else runStages outcome rest

/-! ### Reachable store states — the pipeline's writes to the `media` table

The six orchestrated stages write to the `media` table only through:
`add_media_record` with `status="downloaded"` (`sync_icloud.py` line 108),
`mark_synced_google` (`bulk_pixel_sync.py` line 58), `mark_synced_nas`
(`bulk_nas_sync.py` line 167), `set_initial_size` / `mark_compressed`
(`compress_media.py` lines 200, 213), `mark_album_moved`
(`cleanup_icloud.py` line 79), `mark_deleted_icloud` (`delete_icloud.py`
line 84) and `increment_error_count` (several sites).  `mark_album_moved`
is invoked only on records fetched by `get_media_ready_for_cleanup`, and
within a batch no intervening write changes a fetched record's `status`,
`synced_google`, `synced_nas` or `album_moved` columns, so at the moment
of the update the record still satisfies the cleanup gate; likewise for
`mark_deleted_icloud` and the deletion gate.  The step relation below is
the statement-level effect of these writes (durability of each single
write is the separate concern settled against `closeConnection`). -/

/-- Some row with this `icloud_id` currently satisfies the cleanup gate. -/
def cleanupGateHolds (t : MediaTable) (id : String) : Bool :=
  t.any (fun r => r.icloud_id == id && cleanupGate r)

/-- Some row with this `icloud_id` currently satisfies the deletion gate. -/
def deletionGateHolds (t : MediaTable) (id : String) : Bool :=
  t.any (fun r => r.icloud_id == id && deletionGate r)

/-- One `media`-table write performed by some pipeline stage. -/
inductive Step : MediaTable → MediaTable → Prop
  | ingest {t : MediaTable} (fn id d p : String) (now : Nat) :
      Step t (sqlInsertOrIgnoreMedia t fn id d p "downloaded" now).1
  | markGoogle {t : MediaTable} (id : String) (now : Nat) :
      Step t (sqlUpdateMediaField t (.set_synced_google "yes") id now).1
  | markNas {t : MediaTable} (id : String) (now : Nat) :
      Step t (sqlUpdateMediaField t (.set_synced_nas "yes") id now).1
  | setInitial {t : MediaTable} (id : String) (size : Nat) :
      Step t (sqlSetInitialSize t id size)
  | compressedStep {t : MediaTable} (id : String) (size now : Nat) :
      Step t (sqlMarkCompressed t id size now).1
  | errorStep {t : MediaTable} (id msg : String) (now : Nat) :
      Step t (sqlIncrementError t id msg now)
  | albumMoved {t : MediaTable} (id : String) (now : Nat)
      (h : cleanupGateHolds t id = true) :
      Step t (sqlUpdateMediaField t (.set_album_moved 1) id now).1
  | markDeleted {t : MediaTable} (id : String) (now : Nat)
      (h : deletionGateHolds t id = true) :
      Step t (sqlUpdateMediaField t (.set_deleted_icloud "yes") id now).1

/-- Store states reachable by running pipeline stages from an empty table. -/
inductive Reachable : MediaTable → Prop
  | empty : Reachable []
  | step {t t' : MediaTable} : Reachable t → Step t t' → Reachable t'

/-! ## Theorems -/

/-- A freshly ingested row (all stage flags at their defaults). -/
def sampleRow : MediaRecord :=
  { filename := "a.jpg", icloud_id := "id1",
    created_date := "2023-01-02T03:04:05", local_path := "/data/a.jpg",
    status := "downloaded" }

/-- C1: the flag update of `update_media_field` is never durable.  The
method runs its UPDATE but never calls `conn.commit()`, and
`get_connection` closes the sqlite3 connection, which rolls the implicit
transaction back: for every table, field and id the durable table after
the call is exactly the table before it; on a matching row the method
still returns `True`, and a subsequent `SELECT` over a fresh connection
sees the old field value and the old `last_updated` — contradicting the
claim that the update is committed before the next file is processed. -/
theorem update_media_field_discards_write :
    (∀ (db : MediaTable) (u : FieldUpdate) (id : String) (now : Nat),
        (update_media_field db u id now).2 = db) ∧
    (update_media_field [sampleRow] (.set_synced_nas "yes") "id1" 7).1 = true ∧
    selectById (update_media_field [sampleRow] (.set_synced_nas "yes") "id1" 7).2
        "id1" = some sampleRow ∧
    sampleRow.synced_nas = none ∧ sampleRow.last_updated = 0 := by
  refine ⟨fun db u id now => rfl, ?_, ?_, rfl, rfl⟩ <;> decide

/-- C8: `add_media_record` is not durably idempotent.  Because the insert
is never committed (same defect as the updates), the first call returns
`True` but leaves the durable table empty, so a second call with the same
`icloud_id` inserts again and also returns `True`, and after both calls
the table holds zero rows for that id — not one row with the second call
returning `False`. -/
theorem add_media_record_double_insert :
    (add_media_record [] "a.jpg" "id1" "2023-01-02" "/data/a.jpg"
        "downloaded" 1).1 = true ∧
    (add_media_record
        (add_media_record [] "a.jpg" "id1" "2023-01-02" "/data/a.jpg"
          "downloaded" 1).2
        "a.jpg" "id1" "2023-01-02" "/data/a.jpg" "downloaded" 2).1 = true ∧
    (add_media_record
        (add_media_record [] "a.jpg" "id1" "2023-01-02" "/data/a.jpg"
          "downloaded" 1).2
        "a.jpg" "id1" "2023-01-02" "/data/a.jpg" "downloaded" 2).2 = [] := by
  refine ⟨?_, ?_, ?_⟩ <;> decide

/-- C6 counterexample: a failing gate query is reported as success.  When
the NAS gate query raises `sqlite3.Error`, `get_media_ready_for_nas_sync`
swallows the error and returns `[]`, and `main` takes the "No files ready
for NAS synchronization" branch and returns `True` — the run does not
abort and is not reported as failed, contradicting the claim. -/
theorem nas_gate_error_reported_as_success :
    get_media_ready_for_nas_sync
        (.error (.sqliteError "database is locked")) = [] ∧
    nas_main_from_gate "/mnt/nas" (fun _ => none) false (fun _ => true) []
        (.error (.sqliteError "database is locked")) = true := by
  exact ⟨rfl, rfl⟩

/-- C6 amended: a database error during the NAS gate query is swallowed —
the query method returns the empty list, and the stage's `main` then
reports "no eligible files" and completes successfully (returns `True`)
instead of aborting the run. -/
theorem nas_gate_error_swallowed (e : DbError) (mount : String)
    (parseYM : String → Option String) (das : Bool) (markOk : Nat → Bool)
    (fs : FS) :
    get_media_ready_for_nas_sync (.error e) = [] ∧
    nas_main_from_gate mount parseYM das markOk fs (.error e) = true := by
  exact ⟨rfl, rfl⟩

/-- C7 counterexample: a remote photo that is absent from the iCloud album
is not treated as success.  With the album present but the photo not in
it, `delete_from_icloud_album` logs "Photo ... not found" and returns
`False` — the deletion of that part is reported as a failure, not as
"already gone", contradicting the claim. -/
theorem delete_remote_not_found_fails :
    delete_from_icloud_album (some ["other.jpg"]) "gone.jpg"
      = (false, some ["other.jpg"]) := by
  decide

/-- C7 amended: only the local half of "already absent" is treated as
success.  A missing local file makes `delete_local_file` return `True`
with the filesystem untouched, but a photo missing from the album makes
`delete_from_icloud_album` return `False`, and `delete_file` therefore
reports failure for the whole record. -/
theorem deletion_absent_file_handling :
    (∀ (fs : FS) (p : String), fsGet fs p = none →
        delete_local_file fs p = (true, fs)) ∧
    (∀ (photos : List String) (fn : String), photos.contains fn = false →
        delete_from_icloud_album (some photos) fn = (false, some photos)) ∧
    (∀ (photos : List String) (fs : FS) (markOk : Bool) (file : MediaRecord),
        photos.contains file.filename = false →
        (delete_file (some photos) fs markOk file).1 = false) := by
  refine ⟨fun fs p h => ?_, fun photos fn h => ?_, fun photos fs markOk file h => ?_⟩
  · simp only [delete_local_file, h]
  · simp only [delete_from_icloud_album, h, Bool.false_eq_true, if_false]
  · simp only [delete_file, delete_from_icloud_album, h, Bool.false_eq_true,
      if_false, Bool.false_and]

/-- Witness for the C7 amended theorem at concrete inputs. -/
theorem deletion_absent_file_handling_witness :
    delete_local_file [] "/data/x.jpg" = (true, []) ∧
    delete_from_icloud_album (some ["a.jpg"]) "b.jpg" = (false, some ["a.jpg"]) ∧
    (delete_file (some ["c.jpg"]) [] true sampleRow).1 = false :=
  ⟨deletion_absent_file_handling.1 [] "/data/x.jpg" (by decide),
   deletion_absent_file_handling.2.1 ["a.jpg"] "b.jpg" (by decide),
   deletion_absent_file_handling.2.2 ["c.jpg"] [] true sampleRow (by decide)⟩

/-- C10: if the destination already exists on the NAS with the same byte
size as the source, `sync_file_to_nas` returns `True` without copying:
the filesystem is returned unchanged and the call trace is empty (no
`copy2`, no removal). -/
theorem sync_skip_when_destination_matches (mount : String)
    (parseYM : String → Option String) (fs : FS) (file : MediaRecord)
    (src dst : FsFile)
    (h1 : fsGet fs file.local_path = some src)
    (h2 : fsGet fs (nasPathOf mount (yearMonthOf parseYM file.created_date)
            file.filename) = some dst)
    (h3 : dst.size = src.size) :
    sync_file_to_nas mount parseYM fs file = (true, fs, []) := by
  simp only [sync_file_to_nas, h1, h2, verify_file_integrity, h3, beq_self_eq_true,
    if_true]

/-- Witness for C10 at a concrete filesystem. -/
theorem sync_skip_when_destination_matches_witness :
    sync_file_to_nas "/mnt/nas" (fun _ => some "2023/01")
      [("/data/a.jpg", ⟨[1, 2, 3]⟩), ("/mnt/nas/2023/01/a.jpg", ⟨[4, 5, 6]⟩)]
      sampleRow
      = (true,
         [("/data/a.jpg", ⟨[1, 2, 3]⟩), ("/mnt/nas/2023/01/a.jpg", ⟨[4, 5, 6]⟩)],
         []) :=
  sync_skip_when_destination_matches "/mnt/nas" (fun _ => some "2023/01") _
    sampleRow ⟨[1, 2, 3]⟩ ⟨[4, 5, 6]⟩ (by decide) (by decide) (by decide)

/-! ### Helper lemmas on the executors -/

/-- A missing source file makes `sync_file_to_nas` fail with no side
effects (bulk_nas_sync.py lines 62-64). -/
theorem sync_file_to_nas_missing {fs : FS} {file : MediaRecord}
    (mount : String) (parseYM : String → Option String)
    (h : fsGet fs file.local_path = none) :
    sync_file_to_nas mount parseYM fs file = (false, fs, []) := by
  simp only [sync_file_to_nas, h]

/-- With a missing source, the NAS retry loop makes exactly `max_retries`
attempts separated by `retry_delay`-second sleeps and fails. -/
theorem nasFileRetry_missing {fs : FS} {file : MediaRecord}
    (mount : String) (parseYM : String → Option String) (das : Bool)
    (markOk : Nat → Bool)
    (h : fsGet fs file.local_path = none) :
    nasFileRetry mount parseYM das markOk file (List.range max_retries) fs =
      (false, fs,
       [.syncFileToNas file.local_path, .sleep retry_delay,
        .syncFileToNas file.local_path, .sleep retry_delay,
        .syncFileToNas file.local_path]) := by
  rw [show List.range max_retries = [0, 1, 2] from rfl]
  simp [nasFileRetry, sync_file_to_nas_missing mount parseYM h, max_retries]

/-- With a missing source, one batch iteration counts the file failed and
records the failure via `increment_error_count`; the rest of the batch
is processed on the unchanged filesystem. -/
theorem sync_batch_missing_file {fs : FS} {file : MediaRecord}
    (mount : String) (parseYM : String → Option String) (das : Bool)
    (markOk : Nat → Bool) (files : List MediaRecord)
    (h : fsGet fs file.local_path = none)
    (h2 : (file.synced_nas == some "yes") = false) :
    sync_batch_to_nas mount parseYM das markOk (file :: files) fs =
      (let (c, fs2, tr2) := sync_batch_to_nas mount parseYM das markOk files fs
       ({ c with total := c.total + 1, failed := c.failed + 1 }, fs2,
        [Call.syncFileToNas file.local_path, .sleep retry_delay,
         .syncFileToNas file.local_path, .sleep retry_delay,
         .syncFileToNas file.local_path,
         .dbIncrementError file.icloud_id "NAS sync failed after 3 attempts"]
          ++ tr2)) := by
  simp [sync_batch_to_nas, h2, nasFileRetry_missing mount parseYM das markOk h]

/-- An always-failing `cleanup_file` is attempted exactly `max_retries`
times with `retry_delay`-second sleeps in between. -/
theorem cleanupFileRetry_exhausts (fn : String) (body : Nat → Bool)
    (hb : ∀ a, body a = false) :
    cleanupFileRetry fn body (List.range max_retries) =
      (false,
       [.cleanupFileCall fn, .sleep retry_delay, .cleanupFileCall fn,
        .sleep retry_delay, .cleanupFileCall fn]) := by
  rw [show List.range max_retries = [0, 1, 2] from rfl]
  simp [cleanupFileRetry, hb, max_retries]

/-- An always-failing `delete_file` is attempted exactly `max_retries`
times with `retry_delay`-second sleeps in between. -/
theorem deleteFileRetry_exhausts (fn : String) (body : Nat → Bool)
    (hb : ∀ a, body a = false) :
    deleteFileRetry fn body (List.range max_retries) =
      (false,
       [.deleteFileCall fn, .sleep retry_delay, .deleteFileCall fn,
        .sleep retry_delay, .deleteFileCall fn]) := by
  rw [show List.range max_retries = [0, 1, 2] from rfl]
  simp [deleteFileRetry, hb, max_retries]

/-- An always-raising encoder makes `compress_image` return `None`. -/
theorem compress_image_encode_fails (fs : FS) (p : String) :
    (compress_image fs p none).1 = none := by
  unfold compress_image
  cases h : fsGet fs p <;> simp [h]

/-- An always-raising encoder makes `compress_video` return `None`. -/
theorem compress_video_encode_fails (fs : FS) (p : String) :
    (compress_video fs p none).1 = none := by
  unfold compress_video
  cases h : fsGet fs p <;> simp [h]

/-- With both encoders always failing, `compress_file` reports `None`
whatever the extension and configuration. -/
theorem compress_file_encode_fails (cfg : CompressionConfig) (fs : FS)
    (p : String) (age : ℚ) :
    (compress_file cfg (fun _ => none) (fun _ => none) fs p age).1 = none := by
  unfold compress_file
  split
  · rfl
  · dsimp only
    split
    · exact compress_image_encode_fails fs p
    · split
      · exact compress_video_encode_fails fs p
      · rfl

/-- The failure path of one `compress_batch` iteration: when the source
file exists and `compress_file` reports `None`, the file is counted
failed after a single compression attempt and `increment_error_count`
is called. -/
theorem compressProcessFile_fail (cfg : CompressionConfig) (ageOf : String → ℚ)
    (ie ve : Nat → Option FsFile) (markOk : Bool) (fs : FS) (r : MediaRecord)
    (orig : FsFile) (h : fsGet fs r.local_path = some orig)
    (hn : (compress_file cfg ie ve fs r.local_path (ageOf r.created_date)).1
      = none) :
    compressProcessFile cfg ageOf ie ve markOk fs r =
      ({ failed := 1 },
       (compress_file cfg ie ve fs r.local_path (ageOf r.created_date)).2,
       [.dbSetInitialSize r.icloud_id, .compressFileCall r.local_path,
        .dbIncrementError r.icloud_id "Compression failed"]) := by
  rcases hc : compress_file cfg ie ve fs r.local_path (ageOf r.created_date)
    with ⟨ns, fs2⟩
  rw [hc] at hn
  simp only at hn
  subst hn
  simp [compressProcessFile, h, hc]

/-- C3 counterexample: the compression executor does not retry.  With an
always-failing encoder on an existing file, one `compress_batch`
iteration invokes the compression action exactly once — not
`max_retries = 3` times — before counting the file failed, so the claim's
"uniformly across all four executors" is false. -/
theorem compression_attempted_once :
    ((compressProcessFile ⟨true, 85, 75, 65, 23, 28, 33⟩ (fun _ => 0)
        (fun _ => none) (fun _ => none) true
        [("/data/a.jpg", ⟨[1, 2, 3]⟩)] sampleRow).2.2).count
      (Call.compressFileCall "/data/a.jpg") = 1 ∧
    ¬ ((compressProcessFile ⟨true, 85, 75, 65, 23, 28, 33⟩ (fun _ => 0)
        (fun _ => none) (fun _ => none) true
        [("/data/a.jpg", ⟨[1, 2, 3]⟩)] sampleRow).2.2).count
      (Call.compressFileCall "/data/a.jpg") = 3 ∧
    (compressProcessFile ⟨true, 85, 75, 65, 23, 28, 33⟩ (fun _ => 0)
        (fun _ => none) (fun _ => none) true
        [("/data/a.jpg", ⟨[1, 2, 3]⟩)] sampleRow).1.failed = 1 := by
  have h := compressProcessFile_fail ⟨true, 85, 75, 65, 23, 28, 33⟩ (fun _ => 0)
    (fun _ => none) (fun _ => none) true [("/data/a.jpg", ⟨[1, 2, 3]⟩)]
    sampleRow ⟨[1, 2, 3]⟩ (by decide)
    (compress_file_encode_fails _ _ _ _)
  rw [h]
  refine ⟨?_, ?_, ?_⟩ <;> decide

/-- C3 amended: the archive-copy (NAS), cleanup and origin-deletion
executors each attempt an always-failing per-file action exactly
`max_retries = 3` times with a `retry_delay = 5`-second sleep between
consecutive attempts, then count the file failed and record the failure
via `increment_error_count`; the compression executor attempts the
action exactly once and then counts the file failed. -/
theorem retry_bounds_by_executor :
    (∀ (mount : String) (parseYM : String → Option String) (das : Bool)
        (markOk : Nat → Bool) (fs : FS) (file : MediaRecord),
      fsGet fs file.local_path = none →
      nasFileRetry mount parseYM das markOk file (List.range max_retries) fs =
        (false, fs,
         [.syncFileToNas file.local_path, .sleep retry_delay,
          .syncFileToNas file.local_path, .sleep retry_delay,
          .syncFileToNas file.local_path])) ∧
    (∀ (mount : String) (parseYM : String → Option String) (das : Bool)
        (markOk : Nat → Bool) (fs : FS) (file : MediaRecord),
      fsGet fs file.local_path = none →
      (file.synced_nas == some "yes") = false →
      sync_batch_to_nas mount parseYM das markOk [file] fs =
        ({ total := 1, failed := 1 }, fs,
         [.syncFileToNas file.local_path, .sleep retry_delay,
          .syncFileToNas file.local_path, .sleep retry_delay,
          .syncFileToNas file.local_path,
          .dbIncrementError file.icloud_id
            "NAS sync failed after 3 attempts"])) ∧
    (∀ (body : Nat → Bool) (r : MediaRecord), (∀ a, body a = false) →
      (r.album_moved == 1) = false →
      cleanupProcessFile body r =
        ({ total := 1, failed := 1 },
         [.cleanupFileCall r.filename, .sleep retry_delay,
          .cleanupFileCall r.filename, .sleep retry_delay,
          .cleanupFileCall r.filename,
          .dbIncrementError r.icloud_id "Cleanup failed after 3 attempts"])) ∧
    (∀ (body : Nat → Bool) (r : MediaRecord), (∀ a, body a = false) →
      (r.deleted_icloud == some "yes") = false →
      deleteProcessFile body r =
        ({ total := 1, failed := 1 },
         [.deleteFileCall r.filename, .sleep retry_delay,
          .deleteFileCall r.filename, .sleep retry_delay,
          .deleteFileCall r.filename,
          .dbIncrementError r.icloud_id "Deletion failed after 3 attempts"])) ∧
    (∀ (cfg : CompressionConfig) (ageOf : String → ℚ) (markOk : Bool)
        (fs : FS) (r : MediaRecord) (orig : FsFile),
      fsGet fs r.local_path = some orig →
      compressProcessFile cfg ageOf (fun _ => none) (fun _ => none) markOk fs r
        = ({ failed := 1 },
           (compress_file cfg (fun _ => none) (fun _ => none) fs r.local_path
             (ageOf r.created_date)).2,
           [.dbSetInitialSize r.icloud_id, .compressFileCall r.local_path,
            .dbIncrementError r.icloud_id "Compression failed"])) := by
  refine ⟨?_, ?_, ?_, ?_, ?_⟩
  · exact fun mount parseYM das markOk fs file h =>
      nasFileRetry_missing mount parseYM das markOk h
  · intro mount parseYM das markOk fs file h h2
    rw [sync_batch_missing_file mount parseYM das markOk [] h h2]
    simp [sync_batch_to_nas]
  · intro body r hb hskip
    simp [cleanupProcessFile, hskip, cleanupFileRetry_exhausts r.filename body hb]
  · intro body r hb hskip
    simp [deleteProcessFile, hskip, deleteFileRetry_exhausts r.filename body hb]
  · intro cfg ageOf markOk fs r orig h
    exact compressProcessFile_fail cfg ageOf _ _ markOk fs r orig h
      (compress_file_encode_fails cfg fs r.local_path (ageOf r.created_date))

/-- Witness for the C3 amended theorem at concrete inputs. -/
theorem retry_bounds_by_executor_witness :
    nasFileRetry "/mnt/nas" (fun _ => none) false (fun _ => true) sampleRow
        (List.range max_retries) [] =
      (false, [],
       [.syncFileToNas "/data/a.jpg", .sleep retry_delay,
        .syncFileToNas "/data/a.jpg", .sleep retry_delay,
        .syncFileToNas "/data/a.jpg"]) ∧
    sync_batch_to_nas "/mnt/nas" (fun _ => none) false (fun _ => true)
        [sampleRow] [] =
      ({ total := 1, failed := 1 }, [],
       [.syncFileToNas "/data/a.jpg", .sleep retry_delay,
        .syncFileToNas "/data/a.jpg", .sleep retry_delay,
        .syncFileToNas "/data/a.jpg",
        .dbIncrementError "id1" "NAS sync failed after 3 attempts"]) ∧
    cleanupProcessFile (fun _ => false) sampleRow =
      ({ total := 1, failed := 1 },
       [.cleanupFileCall "a.jpg", .sleep retry_delay, .cleanupFileCall "a.jpg",
        .sleep retry_delay, .cleanupFileCall "a.jpg",
        .dbIncrementError "id1" "Cleanup failed after 3 attempts"]) ∧
    deleteProcessFile (fun _ => false) sampleRow =
      ({ total := 1, failed := 1 },
       [.deleteFileCall "a.jpg", .sleep retry_delay, .deleteFileCall "a.jpg",
        .sleep retry_delay, .deleteFileCall "a.jpg",
        .dbIncrementError "id1" "Deletion failed after 3 attempts"]) ∧
    compressProcessFile ⟨true, 85, 75, 65, 23, 28, 33⟩ (fun _ => 0)
        (fun _ => none) (fun _ => none) true
        [("/data/a.jpg", ⟨[1, 2, 3]⟩)] sampleRow
      = ({ failed := 1 },
         (compress_file ⟨true, 85, 75, 65, 23, 28, 33⟩ (fun _ => none)
           (fun _ => none) [("/data/a.jpg", ⟨[1, 2, 3]⟩)] "/data/a.jpg" 0).2,
         [.dbSetInitialSize "id1", .compressFileCall "/data/a.jpg",
          .dbIncrementError "id1" "Compression failed"]) :=
  ⟨retry_bounds_by_executor.1 "/mnt/nas" (fun _ => none) false (fun _ => true)
     [] sampleRow rfl,
   retry_bounds_by_executor.2.1 "/mnt/nas" (fun _ => none) false
     (fun _ => true) [] sampleRow rfl (by decide),
   retry_bounds_by_executor.2.2.1 (fun _ => false) sampleRow (fun _ => rfl)
     (by decide),
   retry_bounds_by_executor.2.2.2.1 (fun _ => false) sampleRow (fun _ => rfl)
     (by decide),
   retry_bounds_by_executor.2.2.2.2 ⟨true, 85, 75, 65, 23, 28, 33⟩ (fun _ => 0)
     true [("/data/a.jpg", ⟨[1, 2, 3]⟩)] sampleRow ⟨[1, 2, 3]⟩ (by decide)⟩

/-- C5 counterexample: in the compression stage a record whose
`local_path` is missing is counted as `skipped`, not failed: no database
call at all is made — in particular `error_count` is not incremented —
contradicting the claim that every stage increments `error_count` for a
missing source file. -/
theorem compression_missing_file_is_silent_skip :
    compressProcessFile ⟨true, 85, 75, 65, 23, 28, 33⟩ (fun _ => 0)
        (fun _ => none) (fun _ => none) true [] sampleRow
      = ({ skipped := 1 }, [], []) := by
  decide

/-- C5 amended: a missing source file is a hard recorded failure in the
NAS-sync stage — three attempts, then `failed` is bumped and
`increment_error_count` is called, with no flag update issued and the
rest of the batch still processed — but in the compression stage the
record is merely counted `skipped` with no database call, and the batch
moves on. -/
theorem missing_file_handling_by_stage :
    (∀ (cfg : CompressionConfig) (ageOf : String → ℚ)
        (ie ve : Nat → Option FsFile) (markOk : Bool) (fs : FS)
        (r : MediaRecord),
      fsGet fs r.local_path = none →
      compressProcessFile cfg ageOf ie ve markOk fs r
        = ({ skipped := 1 }, fs, [])) ∧
    (∀ (cfg : CompressionConfig) (ageOf : String → ℚ)
        (ie ve : Nat → Option FsFile) (markOk : Bool) (fs : FS)
        (r : MediaRecord) (files : List MediaRecord),
      fsGet fs r.local_path = none →
      compress_batch_files cfg ageOf ie ve markOk (r :: files) fs =
        (let (c, fs2, tr2) := compress_batch_files cfg ageOf ie ve markOk files fs
         ({ c with total := c.total + 1, skipped := c.skipped + 1 }, fs2, tr2))) ∧
    (∀ (mount : String) (parseYM : String → Option String) (das : Bool)
        (markOk : Nat → Bool) (fs : FS) (file : MediaRecord)
        (files : List MediaRecord),
      fsGet fs file.local_path = none →
      (file.synced_nas == some "yes") = false →
      sync_batch_to_nas mount parseYM das markOk (file :: files) fs =
        (let (c, fs2, tr2) := sync_batch_to_nas mount parseYM das markOk files fs
         ({ c with total := c.total + 1, failed := c.failed + 1 }, fs2,
          [Call.syncFileToNas file.local_path, .sleep retry_delay,
           .syncFileToNas file.local_path, .sleep retry_delay,
           .syncFileToNas file.local_path,
           .dbIncrementError file.icloud_id "NAS sync failed after 3 attempts"]
            ++ tr2))) := by
  refine ⟨?_, ?_, ?_⟩
  · intro cfg ageOf ie ve markOk fs r h
    simp [compressProcessFile, h]
  · intro cfg ageOf ie ve markOk fs r files h
    have h1 : compressProcessFile cfg ageOf ie ve markOk fs r
        = ({ skipped := 1 }, fs, []) := by simp [compressProcessFile, h]
    rcases hrest : compress_batch_files cfg ageOf ie ve markOk files fs
      with ⟨c, fs2, tr2⟩
    simp [compress_batch_files, h1, hrest]
    omega
  · intro mount parseYM das markOk fs file files h h2
    exact sync_batch_missing_file mount parseYM das markOk files h h2

/-- Witness for the C5 amended theorem at concrete inputs. -/
theorem missing_file_handling_by_stage_witness :
    compressProcessFile ⟨true, 85, 75, 65, 23, 28, 33⟩ (fun _ => 0)
        (fun _ => none) (fun _ => none) true [] sampleRow
      = ({ skipped := 1 }, [], []) ∧
    compress_batch_files ⟨true, 85, 75, 65, 23, 28, 33⟩ (fun _ => 0)
        (fun _ => none) (fun _ => none) true [sampleRow] []
      = (let (c, fs2, tr2) := compress_batch_files ⟨true, 85, 75, 65, 23, 28, 33⟩
           (fun _ => 0) (fun _ => none) (fun _ => none) true [] []
         ({ c with total := c.total + 1, skipped := c.skipped + 1 }, fs2, tr2)) ∧
    sync_batch_to_nas "/mnt/nas" (fun _ => none) false (fun _ => true)
        [sampleRow] []
      = (let (c, fs2, tr2) := sync_batch_to_nas "/mnt/nas" (fun _ => none)
           false (fun _ => true) [] []
         ({ c with total := c.total + 1, failed := c.failed + 1 }, fs2,
          [Call.syncFileToNas "/data/a.jpg", .sleep retry_delay,
           .syncFileToNas "/data/a.jpg", .sleep retry_delay,
           .syncFileToNas "/data/a.jpg",
           .dbIncrementError "id1" "NAS sync failed after 3 attempts"]
            ++ tr2)) :=
  ⟨missing_file_handling_by_stage.1 ⟨true, 85, 75, 65, 23, 28, 33⟩ (fun _ => 0)
     (fun _ => none) (fun _ => none) true [] sampleRow rfl,
   missing_file_handling_by_stage.2.1 ⟨true, 85, 75, 65, 23, 28, 33⟩
     (fun _ => 0) (fun _ => none) (fun _ => none) true [] sampleRow [] rfl,
   missing_file_handling_by_stage.2.2 "/mnt/nas" (fun _ => none) false
     (fun _ => true) [] sampleRow [] rfl (by decide)⟩

/-! ### Helper lemmas on the filesystem model and the compression
success path -/

/-- Reading back a freshly written path. -/
theorem fsGet_fsSet_self (fs : FS) (p : String) (f : FsFile) :
    fsGet (fsSet fs p f) p = some f := by
  unfold fsGet fsSet
  rw [List.find?_append]
  have h : (fs.filter (fun e => e.1 != p)).find? (fun e => e.1 == p) = none := by
    rw [List.find?_eq_none]
    intro e he
    have := (List.mem_filter.1 he).2
    simpa using this
  simp [h]

/-- Removing one path leaves lookups of a different path unchanged. -/
theorem fsGet_fsRemove_ne (fs : FS) (p q : String) (h : p ≠ q) :
    fsGet (fsRemove fs q) p = fsGet fs p := by
  induction fs with
  | nil => rfl
  | cons e rest ih =>
    by_cases h1 : e.1 = q
    · have e1 : fsRemove (e :: rest) q = fsRemove rest q := by
        simp [fsRemove, List.filter_cons, h1]
      have hep : (e.1 == p) = false := by
        simp [h1]
        exact fun hq => h hq.symm
      have e2 : fsGet (e :: rest) p = fsGet rest p := by
        simp only [fsGet, List.find?_cons, hep]
      rw [e1, e2]
      exact ih
    · have e1 : fsRemove (e :: rest) q = e :: fsRemove rest q := by
        simp [fsRemove, List.filter_cons, h1]
      rw [e1]
      by_cases h2 : e.1 = p
      · have hep : (e.1 == p) = true := by simp [h2]
        simp only [fsGet, List.find?_cons, hep]
      · have hep : (e.1 == p) = false := by simp [h2]
        simp only [fsGet, List.find?_cons, hep]
        exact ih

/-- A path never equals itself with the `".backup"` suffix appended. -/
theorem ne_backup_path (p : String) : p ≠ p ++ ".backup" := by
  intro h
  have hlen := congrArg String.length h
  have h7 : (".backup" : String).length = 7 := by decide
  rw [String.length_append, h7] at hlen
  omega

/-- The image branch of `compress_file` on an existing file with no stale
backup: the file is re-encoded in place and the encoder's size is
returned — whatever that size is. -/
theorem compress_file_image_encodes (cfg : CompressionConfig)
    (ie ve : Nat → Option FsFile) (fs : FS) (p : String) (age : ℚ)
    (orig enc : FsFile)
    (henb : cfg.enabled = true)
    (hext : imageExts.contains (extOf p) = true)
    (h : fsGet fs p = some orig)
    (hb : fsGet fs (p ++ ".backup") = none)
    (hie : ie (imageQualityFor cfg age) = some enc) :
    compress_file cfg ie ve fs p age =
      (some enc.size,
       fsRemove (fsSet (fsSet fs (p ++ ".backup") orig) p enc)
         (p ++ ".backup")) := by
  have hext2 : extOf p ∈ imageExts := by simpa using hext
  simp [compress_file, henb, hext2, compress_image, h, hb, hie]

/-- The success path of one `compress_batch` iteration: an existing file
whose compression returns a nonzero size gets `mark_compressed` with
that size. -/
theorem compressProcessFile_marks (cfg : CompressionConfig)
    (ageOf : String → ℚ) (ie ve : Nat → Option FsFile) (fs : FS)
    (r : MediaRecord) (orig : FsFile) (n : Nat) (fsOut : FS)
    (h : fsGet fs r.local_path = some orig)
    (hc : compress_file cfg ie ve fs r.local_path (ageOf r.created_date)
      = (some n, fsOut))
    (hn : n ≠ 0) :
    compressProcessFile cfg ageOf ie ve true fs r =
      ({ successful := 1 }, fsOut,
       [.dbSetInitialSize r.icloud_id, .compressFileCall r.local_path,
        .dbMarkCompressed r.icloud_id n]) := by
  simp [compressProcessFile, h, hc, hn]

/-- C4 counterexample: a compression that shrinks the file by only 3%
(100 bytes to 97, below a 10% threshold) is not treated as a
no-further-op: `compress_image` overwrites the file with the re-encoded
content and returns the new size, and the batch iteration counts the file
successful and calls `mark_compressed` (setting `last_compressed` and
`current_size`) — contradicting the claim that the marker stays unset and
file and size fields stay untouched. -/
theorem small_shrink_still_compresses :
    compress_image [("/data/a.jpg", ⟨List.replicate 100 0⟩)] "/data/a.jpg"
        (some ⟨List.replicate 97 1⟩)
      = (some 97, [("/data/a.jpg", ⟨List.replicate 97 1⟩)]) ∧
    fsGet [("/data/a.jpg", (⟨List.replicate 97 1⟩ : FsFile))] "/data/a.jpg"
      ≠ some ⟨List.replicate 100 0⟩ ∧
    compressProcessFile ⟨true, 85, 75, 65, 23, 28, 33⟩ (fun _ => 0)
        (fun _ => some ⟨List.replicate 97 1⟩) (fun _ => none) true
        [("/data/a.jpg", ⟨List.replicate 100 0⟩)] sampleRow
      = ({ successful := 1 }, [("/data/a.jpg", ⟨List.replicate 97 1⟩)],
         [.dbSetInitialSize "id1", .compressFileCall "/data/a.jpg",
          .dbMarkCompressed "id1" 97]) := by
  refine ⟨by decide, by decide, ?_⟩
  have hc := compress_file_image_encodes ⟨true, 85, 75, 65, 23, 28, 33⟩
    (fun _ => some ⟨List.replicate 97 1⟩) (fun _ => none)
    [("/data/a.jpg", ⟨List.replicate 100 0⟩)] "/data/a.jpg" 0
    ⟨List.replicate 100 0⟩ ⟨List.replicate 97 1⟩ rfl (by decide) (by decide)
    (by decide) rfl
  rw [show ((some (FsFile.size ⟨List.replicate 97 1⟩) : Option Nat),
      fsRemove (fsSet (fsSet [("/data/a.jpg", (⟨List.replicate 100 0⟩ : FsFile))]
        ("/data/a.jpg" ++ ".backup") ⟨List.replicate 100 0⟩) "/data/a.jpg"
        ⟨List.replicate 97 1⟩) ("/data/a.jpg" ++ ".backup"))
      = ((some 97 : Option Nat), [("/data/a.jpg", (⟨List.replicate 97 1⟩ : FsFile))])
      from by decide] at hc
  exact compressProcessFile_marks ⟨true, 85, 75, 65, 23, 28, 33⟩ (fun _ => 0)
    (fun _ => some ⟨List.replicate 97 1⟩) (fun _ => none)
    [("/data/a.jpg", ⟨List.replicate 100 0⟩)] sampleRow
    ⟨List.replicate 100 0⟩ 97 [("/data/a.jpg", ⟨List.replicate 97 1⟩)]
    (by decide) hc (by decide)

/-- C4 amended: `compress_media.py` applies no minimum-ratio threshold.
For any image file (no stale backup present), whatever content the
encoder produces — including one shrinking the file by less than 10% —
`compress_image` overwrites the file in place and returns the encoder's
size, and the batch iteration marks the record compressed with that size
whenever it is nonzero. -/
theorem compression_ignores_min_ratio :
    (∀ (fs : FS) (p : String) (orig enc : FsFile),
      fsGet fs p = some orig →
      fsGet fs (p ++ ".backup") = none →
      90 * orig.size < 100 * enc.size →
      (compress_image fs p (some enc)).1 = some enc.size ∧
      fsGet (compress_image fs p (some enc)).2 p = some enc) ∧
    (∀ (cfg : CompressionConfig) (ageOf : String → ℚ)
        (ve : Nat → Option FsFile) (fs : FS) (r : MediaRecord)
        (orig enc : FsFile),
      cfg.enabled = true →
      imageExts.contains (extOf r.local_path) = true →
      fsGet fs r.local_path = some orig →
      fsGet fs (r.local_path ++ ".backup") = none →
      90 * orig.size < 100 * enc.size →
      enc.size ≠ 0 →
      compressProcessFile cfg ageOf (fun _ => some enc) ve true fs r =
        ({ successful := 1 },
         fsRemove (fsSet (fsSet fs (r.local_path ++ ".backup") orig)
           r.local_path enc) (r.local_path ++ ".backup"),
         [.dbSetInitialSize r.icloud_id, .compressFileCall r.local_path,
          .dbMarkCompressed r.icloud_id enc.size])) := by
  constructor
  · intro fs p orig enc h hb _
    constructor
    · simp [compress_image, h, hb]
    · simp only [compress_image, h, hb, Option.isSome_none, Bool.false_eq_true,
        if_false]
      rw [fsGet_fsRemove_ne _ _ _ (ne_backup_path p), fsGet_fsSet_self]
  · intro cfg ageOf ve fs r orig enc henb hext h hb _ hn
    exact compressProcessFile_marks cfg ageOf (fun _ => some enc) ve fs r orig
      enc.size _ h
      (compress_file_image_encodes cfg (fun _ => some enc) ve fs r.local_path
        (ageOf r.created_date) orig enc henb hext h hb rfl) hn

/-- Witness for the C4 amended theorem at concrete inputs (a 3% shrink). -/
theorem compression_ignores_min_ratio_witness :
    ((compress_image [("/data/a.jpg", ⟨List.replicate 100 0⟩)] "/data/a.jpg"
        (some ⟨List.replicate 97 1⟩)).1
      = some (FsFile.size ⟨List.replicate 97 1⟩) ∧
     fsGet (compress_image [("/data/a.jpg", ⟨List.replicate 100 0⟩)]
        "/data/a.jpg" (some ⟨List.replicate 97 1⟩)).2 "/data/a.jpg"
      = some ⟨List.replicate 97 1⟩) ∧
    compressProcessFile ⟨true, 85, 75, 65, 23, 28, 33⟩ (fun _ => 0)
        (fun _ => some ⟨List.replicate 97 1⟩) (fun _ => none) true
        [("/data/a.jpg", ⟨List.replicate 100 0⟩)] sampleRow
      = ({ successful := 1 },
         fsRemove (fsSet (fsSet [("/data/a.jpg", ⟨List.replicate 100 0⟩)]
           ("/data/a.jpg" ++ ".backup") ⟨List.replicate 100 0⟩) "/data/a.jpg"
           ⟨List.replicate 97 1⟩) ("/data/a.jpg" ++ ".backup"),
         [.dbSetInitialSize "id1", .compressFileCall "/data/a.jpg",
          .dbMarkCompressed "id1" (FsFile.size ⟨List.replicate 97 1⟩)]) :=
  ⟨compression_ignores_min_ratio.1 [("/data/a.jpg", ⟨List.replicate 100 0⟩)]
     "/data/a.jpg" ⟨List.replicate 100 0⟩ ⟨List.replicate 97 1⟩ (by decide)
     (by decide) (by decide),
   compression_ignores_min_ratio.2 ⟨true, 85, 75, 65, 23, 28, 33⟩ (fun _ => 0)
     (fun _ => none) [("/data/a.jpg", ⟨List.replicate 100 0⟩)] sampleRow
     ⟨List.replicate 100 0⟩ ⟨List.replicate 97 1⟩ rfl (by decide) (by decide)
     (by decide) (by decide) (by decide)⟩

/-- C9: the orchestrator stops at the first failed stage.  A batch stage's
`main` returns `failed == 0`, so one or more per-file failures (or a
raised exception, mapped by `run_stage` to `success = False`) make the
stage unsuccessful; `run_pipeline` then records `(stage, False)`, sets
`overall_success = False` and `break`s — the result is exactly the
results of the successful prefix plus the failing stage, independent of
every later stage in the list, which is therefore never started. -/
theorem pipeline_stops_on_stage_failure :
    (∀ c : BatchCounts, 0 < c.failed →
      stageSuccess (batchMainResult c) = false) ∧
    (∀ (outcome : String → StageOutcome) (pre : List String) (s : String)
        (post : List String),
      (∀ p ∈ pre, pipelineStages.contains p = true →
        stageSuccess (outcome p) = true) →
      pipelineStages.contains s = true →
      stageSuccess (outcome s) = false →
      runStages outcome (pre ++ s :: post) =
        ((runStages outcome pre).1 ++ [(s, false)], false)) := by
  constructor
  · intro c hc
    simp only [batchMainResult, stageSuccess]
    exact beq_eq_false_iff_ne.2 (by omega)
  · intro outcome pre s post hpre hs hf
    induction pre with
    | nil =>
      have hs2 : s ∈ pipelineStages := by simpa using hs
      simp [runStages, hs2, hf]
    | cons p rest ih =>
      have hpre2 : ∀ x ∈ rest, pipelineStages.contains x = true →
          stageSuccess (outcome x) = true :=
        fun x hx => hpre x (List.mem_cons_of_mem p hx)
      by_cases hp : p ∈ pipelineStages
      · have hsucc := hpre p (List.mem_cons_self p rest) (by simpa using hp)
        simp [runStages, hp, hsucc, ih hpre2]
      · simp [runStages, hp, ih hpre2]

/-- Witness for C9: with `nas_sync` failing after two successful stages,
the pipeline executes only the prefix and reports failure. -/
theorem pipeline_stops_on_stage_failure_witness :
    runStages
        (fun st => if st == "nas_sync" then StageOutcome.mainReturned false
          else .mainReturned true)
        (["icloud_sync", "pixel_sync"] ++ "nas_sync" ::
          ["compression", "cleanup", "deletion"]) =
      ((runStages
          (fun st => if st == "nas_sync" then StageOutcome.mainReturned false
            else .mainReturned true)
          ["icloud_sync", "pixel_sync"]).1 ++ [("nas_sync", false)], false) :=
  pipeline_stops_on_stage_failure.2
    (fun st => if st == "nas_sync" then StageOutcome.mainReturned false
      else .mainReturned true)
    ["icloud_sync", "pixel_sync"] "nas_sync"
    ["compression", "cleanup", "deletion"] (by decide) (by decide) (by decide)

/-! ### The ready-for-delete invariant (C2) -/

/-- `icloud_id` is `UNIQUE` in the schema: no two distinct rows share it. -/
def UniqueIds (t : MediaTable) : Prop :=
  ∀ r1 ∈ t, ∀ r2 ∈ t, r1.icloud_id = r2.icloud_id → r1 = r2

/-- The invariant of the claim: `album_moved = 1` only with both sync
confirmations set. -/
def AlbumInv (t : MediaTable) : Prop :=
  ∀ r ∈ t, r.album_moved = 1 →
    r.synced_google = some "yes" ∧ r.synced_nas = some "yes"

/-- `update_media_field` never changes `icloud_id`. -/
theorem applyFieldUpdate_icloud_id (u : FieldUpdate) (now : Nat)
    (r : MediaRecord) : (applyFieldUpdate u now r).icloud_id = r.icloud_id := by
  cases u <;> rfl

/-- An id-preserving row transformation preserves id uniqueness. -/
theorem uniqueIds_map {t : MediaTable} (g : MediaRecord → MediaRecord)
    (hid : ∀ r, (g r).icloud_id = r.icloud_id) (h : UniqueIds t) :
    UniqueIds (t.map g) := by
  intro r1 h1 r2 h2 he
  obtain ⟨a, ha, rfl⟩ := List.mem_map.1 h1
  obtain ⟨b, hb, rfl⟩ := List.mem_map.1 h2
  rw [hid a, hid b] at he
  rw [h a ha b hb he]

/-- A row transformation that preserves the invariant pointwise preserves
it on the table. -/
theorem albumInv_map {t : MediaTable} (g : MediaRecord → MediaRecord)
    (hg : ∀ r ∈ t,
      (r.album_moved = 1 → r.synced_google = some "yes" ∧
        r.synced_nas = some "yes") →
      (g r).album_moved = 1 → (g r).synced_google = some "yes" ∧
        (g r).synced_nas = some "yes")
    (h : AlbumInv t) : AlbumInv (t.map g) := by
  intro r2 hr2 halb
  obtain ⟨r, hr, rfl⟩ := List.mem_map.1 hr2
  exact hg r hr (h r hr) halb

/-- Every pipeline write preserves id uniqueness and the ready-for-delete
invariant. -/
theorem step_preserves {t t2 : MediaTable} (st : Step t t2)
    (h : UniqueIds t ∧ AlbumInv t) : UniqueIds t2 ∧ AlbumInv t2 := by
  obtain ⟨hu, ha⟩ := h
  cases st with
  | ingest fn id d p now =>
    unfold sqlInsertOrIgnoreMedia
    by_cases hex : t.any (fun r => r.icloud_id == id) = true
    · simpa [hex] using ⟨hu, ha⟩
    · have hex2 : ∀ r ∈ t, r.icloud_id ≠ id := by
        intro r hr
        have := List.any_eq_false.mp (Bool.not_eq_true _ |>.mp hex) r hr
        simpa using this
      simp only [hex, Bool.false_eq_true, if_false]
      constructor
      · intro r1 h1 r2 h2 he
        rcases List.mem_append.1 h1 with h1 | h1 <;>
          rcases List.mem_append.1 h2 with h2 | h2
        · exact hu r1 h1 r2 h2 he
        · simp only [List.mem_singleton] at h2
          subst h2
          exact absurd he (hex2 r1 h1)
        · simp only [List.mem_singleton] at h1
          subst h1
          exact absurd he.symm (hex2 r2 h2)
        · simp only [List.mem_singleton] at h1 h2
          rw [h1, h2]
      · intro r hr halb
        rcases List.mem_append.1 hr with hr | hr
        · exact ha r hr halb
        · simp only [List.mem_singleton] at hr
          subst hr
          simp [newMediaRecord] at halb
  | markGoogle id now =>
    refine ⟨uniqueIds_map _ (fun r => ?_) hu, albumInv_map _ (fun r hr hp halb => ?_) ha⟩
    · by_cases hc : (r.icloud_id == id) = true <;>
        simp [hc, applyFieldUpdate_icloud_id]
    · by_cases hc : (r.icloud_id == id) = true <;>
        simp only [hc, Bool.false_eq_true, if_true, if_false,
          applyFieldUpdate] at halb ⊢ <;>
        [skip; exact hp halb]
      exact ⟨trivial, (hp halb).2⟩
  | markNas id now =>
    refine ⟨uniqueIds_map _ (fun r => ?_) hu, albumInv_map _ (fun r hr hp halb => ?_) ha⟩
    · by_cases hc : (r.icloud_id == id) = true <;>
        simp [hc, applyFieldUpdate_icloud_id]
    · by_cases hc : (r.icloud_id == id) = true <;>
        simp only [hc, Bool.false_eq_true, if_true, if_false,
          applyFieldUpdate] at halb ⊢ <;>
        [skip; exact hp halb]
      exact ⟨(hp halb).1, trivial⟩
  | setInitial id size =>
    refine ⟨uniqueIds_map _ (fun r => ?_) hu, albumInv_map _ (fun r hr hp halb => ?_) ha⟩
    · by_cases hc : (r.icloud_id == id) = true <;> simp [hc]
    · by_cases hc : (r.icloud_id == id) = true <;>
        simp only [hc, Bool.false_eq_true, if_true, if_false] at halb ⊢ <;>
        exact hp halb
  | compressedStep id size now =>
    refine ⟨uniqueIds_map _ (fun r => ?_) hu, albumInv_map _ (fun r hr hp halb => ?_) ha⟩
    · by_cases hc : (r.icloud_id == id) = true <;> simp [hc]
    · by_cases hc : (r.icloud_id == id) = true <;>
        simp only [hc, Bool.false_eq_true, if_true, if_false] at halb ⊢ <;>
        exact hp halb
  | errorStep id msg now =>
    refine ⟨uniqueIds_map _ (fun r => ?_) hu, albumInv_map _ (fun r hr hp halb => ?_) ha⟩
    · by_cases hc : (r.icloud_id == id) = true <;> simp [hc]
    · by_cases hc : (r.icloud_id == id) = true <;>
        simp only [hc, Bool.false_eq_true, if_true, if_false] at halb ⊢ <;>
        exact hp halb
  | albumMoved id now hgate =>
    refine ⟨uniqueIds_map _ (fun r => ?_) hu, albumInv_map _ (fun r hr hp halb => ?_) ha⟩
    · by_cases hc : (r.icloud_id == id) = true <;>
        simp [hc, applyFieldUpdate_icloud_id]
    · by_cases hc : (r.icloud_id == id) = true
      · obtain ⟨q, hq, hqpred⟩ := List.any_eq_true.1 hgate
        simp only [Bool.and_eq_true] at hqpred
        obtain ⟨hq1, hq2⟩ := hqpred
        have hqr : q = r := hu q hq r hr (by
          rw [eq_of_beq hq1, eq_of_beq hc])
        subst hqr
        simp only [cleanupGate, Bool.and_eq_true, beq_iff_eq] at hq2
        simp only [hc, if_true, applyFieldUpdate]
        exact ⟨hq2.1.1.2, hq2.1.2⟩
      · simp only [hc, Bool.false_eq_true, if_false] at halb ⊢
        exact hp halb
  | markDeleted id now hgate =>
    refine ⟨uniqueIds_map _ (fun r => ?_) hu, albumInv_map _ (fun r hr hp halb => ?_) ha⟩
    · by_cases hc : (r.icloud_id == id) = true <;>
        simp [hc, applyFieldUpdate_icloud_id]
    · by_cases hc : (r.icloud_id == id) = true <;>
        simp only [hc, Bool.false_eq_true, if_true, if_false,
          applyFieldUpdate] at halb ⊢ <;>
        exact hp halb

/-- Every reachable store state has unique ids and satisfies the
ready-for-delete invariant. -/
theorem reachable_inv {t : MediaTable} (h : Reachable t) :
    UniqueIds t ∧ AlbumInv t := by
  induction h with
  | empty =>
    exact ⟨fun r1 h1 => absurd h1 (List.not_mem_nil r1),
           fun r hr => absurd hr (List.not_mem_nil r)⟩
  | step _ hs ih => exact step_preserves hs ih

/-- C2: in every store state reachable by the pipeline stages from an
empty `media` table, a record has `album_moved = 1` only if
`synced_google = 'yes'` and `synced_nas = 'yes'`; and the cleanup gate
query (`get_media_ready_for_cleanup`) selects only records satisfying
both confirmations. -/
theorem ready_for_delete_gate_invariant :
    (∀ t : MediaTable, Reachable t → ∀ r ∈ t, r.album_moved = 1 →
      r.synced_google = some "yes" ∧ r.synced_nas = some "yes") ∧
    (∀ (t : MediaTable) (r : MediaRecord), r ∈ sqlMediaReadyForCleanup t →
      r.synced_google = some "yes" ∧ r.synced_nas = some "yes") := by
  constructor
  · intro t ht r hr halb
    exact (reachable_inv ht).2 r hr halb
  · intro t r hr
    have hg := (List.mem_filter.1 hr).2
    simp only [cleanupGate, Bool.and_eq_true, beq_iff_eq] at hg
    exact ⟨hg.1.1.2, hg.1.2⟩

/-- A store state produced by ingesting one file, confirming both syncs
and running the cleanup stage on it. -/
def c2Table : MediaTable :=
  (sqlUpdateMediaField
    (sqlUpdateMediaField
      (sqlUpdateMediaField
        (sqlInsertOrIgnoreMedia [] "a.jpg" "id1" "2023-01-02T03:04:05"
          "/data/a.jpg" "downloaded" 1).1
        (.set_synced_google "yes") "id1" 2).1
      (.set_synced_nas "yes") "id1" 3).1
    (.set_album_moved 1) "id1" 4).1

/-- The single row of `c2Table` after the cleanup stage marked it. -/
def c2Row : MediaRecord :=
  { filename := "a.jpg", icloud_id := "id1",
    created_date := "2023-01-02T03:04:05", local_path := "/data/a.jpg",
    status := "downloaded", synced_google := some "yes",
    synced_nas := some "yes", album_moved := 1, last_updated := 4 }

/-- Witness for C2 on a concrete reachable state with the marker set. -/
theorem ready_for_delete_gate_invariant_witness :
    c2Row.synced_google = some "yes" ∧ c2Row.synced_nas = some "yes" :=
  ready_for_delete_gate_invariant.1 c2Table
    (Reachable.step
      (Reachable.step
        (Reachable.step
          (Reachable.step Reachable.empty
            (Step.ingest "a.jpg" "id1" "2023-01-02T03:04:05" "/data/a.jpg" 1))
          (Step.markGoogle "id1" 2))
        (Step.markNas "id1" 3))
      (Step.albumMoved "id1" 4 (by decide)))
    c2Row (by decide) rfl

end MediaStorage
